import Mathlib

/-!
# Verification of the XMILE slider binding

Shallow embedding of `symbiosis/backend/data_processing/xmile_parser/bindings/xmile_slider.py`:
the `XmileSlider` dataclass (a typed record mirroring the `<slider>` XML element of the
XMILE format), its per-field XML metadata, and a serialization/deserialization engine
modelled from the spec (the engine itself is external to the supplied source).

The file first builds the lexical layer (decimal integer and int-or-float printing and
parsing, boolean lexical forms), then the XML value model, then the record and its
metadata table, then the engine, and finally the theorems about the claims.
-/

/-! ## Lexical layer: decimal digits -/

/-- The character for a single decimal digit value (`0 ↦ '0'`, ..., `9 ↦ '9'`). -/
def digitToChar (d : Nat) : Char := Char.ofNat (d + 48)

/-- The decimal digit value of a character (`'0' ↦ 0`, ..., `'9' ↦ 9`). -/
def charToDigit (c : Char) : Nat := c.toNat - 48

/-- Whether a character is a decimal digit `'0'`..`'9'`. -/
def isDigitChar (c : Char) : Bool := 48 ≤ c.toNat && c.toNat ≤ 57

theorem charToDigit_digitToChar : ∀ d : Nat, d < 10 → charToDigit (digitToChar d) = d := by
  decide

theorem isDigitChar_digitToChar : ∀ d : Nat, d < 10 → isDigitChar (digitToChar d) = true := by
  decide

/-- Base-10 digits, least significant first, with explicit fuel (structural recursion,
so that concrete values reduce). -/
def natDigitsAux : Nat → Nat → List Nat
  | 0, _ => []
  | fuel + 1, n => if n = 0 then [] else n % 10 :: natDigitsAux fuel (n / 10)

/-- Base-10 digits of a natural number, least significant first. -/
def natDigits (n : Nat) : List Nat := natDigitsAux n n

theorem natDigitsAux_eq_digits : ∀ fuel n, n ≤ fuel → natDigitsAux fuel n = Nat.digits 10 n := by
  intro fuel
  induction fuel with
  | zero =>
    intro n hn
    interval_cases n
    simp [natDigitsAux]
  | succ fuel ih =>
    intro n hn
    by_cases h0 : n = 0
    · subst h0
      simp [natDigitsAux]
    · rw [natDigitsAux, if_neg h0, Nat.digits_def' (by norm_num : (1:ℕ) < 10) (Nat.pos_of_ne_zero h0)]
      congr 1
      exact ih (n / 10) (by omega)

theorem natDigits_eq_digits (n : Nat) : natDigits n = Nat.digits 10 n :=
  natDigitsAux_eq_digits n n le_rfl

/-- Decimal digit characters of a natural number, most significant first. -/
def natLexChars (n : Nat) : List Char :=
  if n = 0 then ['0'] else ((natDigits n).map digitToChar).reverse

/-- Parse a list of characters as an unsigned decimal natural number.
Fails on the empty list and on any non-digit character. -/
def parseNatChars (cs : List Char) : Option Nat :=
  if cs ≠ [] ∧ cs.all isDigitChar then
    some (Nat.ofDigits 10 ((cs.map charToDigit).reverse))
  else none

theorem natLexChars_ne_nil (n : Nat) : natLexChars n ≠ [] := by
  unfold natLexChars
  rw [natDigits_eq_digits]
  split
  · simp
  · simp [Nat.digits_ne_nil_iff_ne_zero, *]

theorem natLexChars_all_digits (n : Nat) : (natLexChars n).all isDigitChar = true := by
  unfold natLexChars
  rw [natDigits_eq_digits]
  split
  · decide
  · simp only [List.all_eq_true, List.mem_reverse, List.mem_map]
    rintro c ⟨d, hd, rfl⟩
    exact isDigitChar_digitToChar d (Nat.digits_lt_base (by norm_num) hd)

theorem parseNatChars_natLexChars (n : Nat) : parseNatChars (natLexChars n) = some n := by
  unfold parseNatChars
  rw [if_pos ⟨natLexChars_ne_nil n, natLexChars_all_digits n⟩]
  congr 1
  unfold natLexChars
  rw [natDigits_eq_digits]
  split
  · subst n
    decide
  · rw [List.map_reverse, List.reverse_reverse, List.map_map]
    have hmap : (Nat.digits 10 n).map (charToDigit ∘ digitToChar) = Nat.digits 10 n := by
      conv_rhs => rw [show Nat.digits 10 n = (Nat.digits 10 n).map id from (List.map_id _).symm]
      apply List.map_congr_left
      intro d hd
      simp only [Function.comp_apply, id_eq]
      exact charToDigit_digitToChar d (Nat.digits_lt_base (by norm_num) hd)
    rw [hmap, Nat.ofDigits_digits]

/-! ## Lexical layer: signed integers -/

/-- Decimal digit characters of an integer, a leading `'-'` for negative values. -/
def intLexChars (n : Int) : List Char :=
  if n < 0 then '-' :: natLexChars n.natAbs else natLexChars n.toNat

/-- Parse a list of characters as a signed decimal integer. -/
def parseIntChars (cs : List Char) : Option Int :=
  if cs.head? = some '-' then
    match parseNatChars cs.tail with
    | some m => some (-(m : Int))
    | none => none
  else
    match parseNatChars cs with
    | some m => some ((m : Int))
    | none => none

theorem natLexChars_head_digit (n : Nat) :
    ∀ c, (natLexChars n).head? = some c → isDigitChar c = true := by
  intro c hc
  have hall := natLexChars_all_digits n
  rw [List.all_eq_true] at hall
  exact hall c (List.mem_of_mem_head? hc)

theorem natLexChars_head_ne_dash (n : Nat) : (natLexChars n).head? ≠ some '-' := by
  intro h
  have := natLexChars_head_digit n _ h
  simp [isDigitChar] at this

theorem parseIntChars_intLexChars (n : Int) : parseIntChars (intLexChars n) = some n := by
  unfold parseIntChars intLexChars
  by_cases hn : n < 0
  · rw [if_pos hn]
    simp only [List.head?_cons, List.tail_cons, parseNatChars_natLexChars, if_pos,
      Option.some.injEq]
    omega
  · rw [if_neg hn, if_neg (natLexChars_head_ne_dash n.toNat), parseNatChars_natLexChars]
    simp only [Option.some.injEq]
    omega

theorem intLexChars_no_dot (n : Int) : '.' ∉ intLexChars n := by
  have hnat : ∀ m : Nat, '.' ∉ natLexChars m := by
    intro m hmem
    have hall := natLexChars_all_digits m
    rw [List.all_eq_true] at hall
    have := hall _ hmem
    simp [isDigitChar] at this
  unfold intLexChars
  split
  · intro h
    rcases List.mem_cons.mp h with h | h
    · exact absurd h (by decide)
    · exact hnat _ h
  · exact hnat _

/-! ## Lexical layer: `Union[int, float]` values

The Python field type `Optional[Union[int, float]]` distinguishes an integer value
from a floating-point one.  Modelled from the spec: XML numeric text is either an
integer lexical form or a decimal form with a fractional part; the engine preserves
which form was present. -/

/-- The value of a slider numeric field: an integer, or a decimal number given by its
integer part and its fractional digits. Mirrors Python's `Union[int, float]`, whose
two alternatives the engine keeps apart. -/
inductive UnionIntFloat where
  | asInt (n : Int)
  | asFloat (ipart : Int) (frac : List (Fin 10))
deriving DecidableEq

/-- Lexical characters of a numeric value: integer form has no decimal point,
decimal form is `ipart.fracdigits`. -/
def numLexChars : UnionIntFloat → List Char
  | .asInt n => intLexChars n
  | .asFloat i fr => intLexChars i ++ '.' :: fr.map (fun d => digitToChar d.val)

/-- Split a character list at the first `'.'`: the part before it, and
(when a `'.'` occurs) the part after it. -/
def splitDot : List Char → List Char × Option (List Char)
  | [] => ([], none)
  | c :: cs =>
    if c = '.' then ([], some cs)
    else
      let p := splitDot cs
      (c :: p.1, p.2)

/-- Read a character list as fractional digits; fails on any non-digit. -/
def fracDigits : List Char → Option (List (Fin 10))
  | [] => some []
  | c :: cs =>
    if h : isDigitChar c then
      match fracDigits cs with
      | some ds => some (⟨charToDigit c, by
          unfold isDigitChar at h
          simp only [Bool.and_eq_true, decide_eq_true_eq] at h
          unfold charToDigit
          omega⟩ :: ds)
      | none => none
    else none

/-- Parse a character list as a numeric value, preserving integer vs decimal form. -/
def parseNumChars (cs : List Char) : Option UnionIntFloat :=
  match splitDot cs with
  | (ip, none) =>
    match parseIntChars ip with
    | some n => some (.asInt n)
    | none => none
  | (ip, some fp) =>
    match parseIntChars ip, fracDigits fp with
    | some n, some ds => some (.asFloat n ds)
    | _, _ => none

theorem splitDot_no_dot {cs : List Char} (h : '.' ∉ cs) : splitDot cs = (cs, none) := by
  induction cs with
  | nil => rfl
  | cons c cs ih =>
    have hc : c ≠ '.' := fun hh => h (hh ▸ List.mem_cons_self c cs)
    have hcs : '.' ∉ cs := fun hh => h (List.mem_cons_of_mem c hh)
    simp [splitDot, hc, ih hcs]

theorem splitDot_append {a b : List Char} (h : '.' ∉ a) :
    splitDot (a ++ '.' :: b) = (a, some b) := by
  induction a with
  | nil => simp [splitDot]
  | cons c cs ih =>
    have hc : c ≠ '.' := fun hh => h (hh ▸ List.mem_cons_self c cs)
    have hcs : '.' ∉ cs := fun hh => h (List.mem_cons_of_mem c hh)
    simp [splitDot, hc, ih hcs]

theorem fracDigits_map (ds : List (Fin 10)) :
    fracDigits (ds.map (fun d => digitToChar d.val)) = some ds := by
  induction ds with
  | nil => rfl
  | cons d ds ih =>
    have hdig : isDigitChar (digitToChar d.val) = true := isDigitChar_digitToChar d.val d.isLt
    simp only [List.map_cons, fracDigits, hdig, dif_pos, ih]
    congr 2
    exact Fin.ext (charToDigit_digitToChar d.val d.isLt)

theorem parseNumChars_numLexChars (v : UnionIntFloat) :
    parseNumChars (numLexChars v) = some v := by
  cases v with
  | asInt n =>
    unfold parseNumChars numLexChars
    rw [splitDot_no_dot (intLexChars_no_dot n)]
    simp [parseIntChars_intLexChars]
  | asFloat i fr =>
    unfold parseNumChars numLexChars
    rw [splitDot_append (intLexChars_no_dot i)]
    simp [parseIntChars_intLexChars, fracDigits_map]

/-! ## Lexical layer: booleans -/

/-- XML boolean lexical form, `true` / `false`. -/
def boolLexChars : Bool → List Char
  | true => ['t', 'r', 'u', 'e']
  | false => ['f', 'a', 'l', 's', 'e']

/-- Parse an XML boolean lexical form. -/
def parseBoolChars (cs : List Char) : Option Bool :=
  if cs = ['t', 'r', 'u', 'e'] then some true
  else if cs = ['f', 'a', 'l', 's', 'e'] then some false
  else none

theorem parseBoolChars_boolLexChars (b : Bool) :
    parseBoolChars (boolLexChars b) = some b := by
  cases b <;> rfl

/-! ## String wrappers for the lexical layer -/

/-- Integer lexical form as a string. -/
def intLex (n : Int) : String := ⟨intLexChars n⟩

/-- Numeric (int-or-float) lexical form as a string. -/
def numLex (v : UnionIntFloat) : String := ⟨numLexChars v⟩

/-- Boolean lexical form as a string. -/
def boolLex (b : Bool) : String := ⟨boolLexChars b⟩

/-- Parse a string as a signed decimal integer. -/
def parseInt (s : String) : Option Int := parseIntChars s.data

/-- Parse a string as a numeric (int-or-float) value. -/
def parseNum (s : String) : Option UnionIntFloat := parseNumChars s.data

/-- Parse a string as an XML boolean. -/
def parseBool (s : String) : Option Bool := parseBoolChars s.data

theorem parseInt_intLex (n : Int) : parseInt (intLex n) = some n :=
  parseIntChars_intLexChars n

theorem parseNum_numLex (v : UnionIntFloat) : parseNum (numLex v) = some v :=
  parseNumChars_numLexChars v

theorem parseBool_boolLex (b : Bool) : parseBool (boolLex b) = some b :=
  parseBoolChars_boolLexChars b

/-! ## XML value model

Modelled from the spec (section 6): an element has a tag name, a namespace,
attributes `name="value"` (each optionally under a secondary namespace), and
child elements. -/

/-- One XML attribute: its name, its optional (vendor) namespace, its text value. -/
structure XmlAttr where
  name : String
  ns : Option String
  value : String
deriving DecidableEq

/-- One child element, as the slider engine sees it: a tag name and attributes. -/
structure XmlChild where
  name : String
  attrs : List XmlAttr
deriving DecidableEq

/-- The XML element produced or consumed for one `<slider>` tag. -/
structure XmlElem where
  name : String
  ns : String
  attrs : List XmlAttr
  children : List XmlChild
deriving DecidableEq

/-! ## Namespaces -/

/-- The module-level `__NAMESPACE__` constant of `xmile_slider.py` (src line 25). -/
def NAMESPACE_OF_MODULE : String := "http://docs.oasis-open.org/xmile/ns/XMILE/v1.0"

/-- Modelled from the spec: `xmile_globals.XMILE_NAMESPACE` lives outside the supplied
source; the spec fixes the primary namespace to the XMILE v1.0 schema namespace,
matching the module's own `__NAMESPACE__` constant. -/
def XMILE_NAMESPACE : String := "http://docs.oasis-open.org/xmile/ns/XMILE/v1.0"

/-- Modelled from the spec: `xmile_globals.ISEE_NAMESPACE`, the secondary (ISEE vendor)
namespace, lives outside the supplied source; the spec requires only that it be a
fixed namespace distinct from the primary schema namespace. -/
def ISEE_NAMESPACE : String := "http://iseesystems.com/XMILE"

/-! ## The nested record types

The three sub-schemas are referenced by the slider but defined outside the
supplied source. -/

/-- Modelled from the spec: `xmile_format.XmileFormat` (display/number formatting)
is external to the supplied source; its content is carried as its raw XML
attributes. -/
structure XmileFormat where
  attrs : List XmlAttr := []
deriving DecidableEq

/-- Modelled from the spec: `xmile_entity.XmileEntity`, the reference to the bound
model variable, is external to the supplied source; carried as an optional
variable name. -/
structure XmileEntity where
  name : Option String := none
deriving DecidableEq

/-- Modelled from the spec: `xmile_reset_to.XmileResetTo` (default-value reset
behavior) is external to the supplied source; carried as an optional value text. -/
structure XmileResetTo where
  value : Option String := none
deriving DecidableEq

/-! ## The `XmileSlider` record -/

/-- The `XmileSlider` dataclass of `xmile_slider.py` (src lines 28–225): every field
optional, defaulting to unset (`None`). Field order and types follow the source
declarations. -/
structure XmileSlider where
  show_name : Option Bool := none
  conditional_entity : Option String := none
  increment : Option UnionIntFloat := none
  width : Option UnionIntFloat := none
  label_side : Option String := none
  y : Option UnionIntFloat := none
  wrap_title : Option Bool := none
  always_show_hover_tip : Option Bool := none
  input_expands : Option Bool := none
  title : Option String := none
  x : Option UnionIntFloat := none
  uid : Option Int := none
  show_hover_tip : Option String := none
  vertical : Option Bool := none
  fancy_appearance : Option Bool := none
  height : Option UnionIntFloat := none
  max : Option UnionIntFloat := none
  color : Option String := none
  font_weight : Option String := none
  font_color : Option String := none
  background : Option String := none
  font_family : Option String := none
  font_size : Option String := none
  num_ticks : Option Int := none
  input_width : Option Int := none
  navigate_to : Option Bool := none
  min : Option UnionIntFloat := none
  z_index : Option Int := none
  format : Option XmileFormat := none
  entity : Option XmileEntity := none
  reset_to : Option XmileResetTo := none
deriving DecidableEq

/-- `Meta.name` of `XmileSlider` (src line 32): the fixed XML tag name. -/
def XmileSlider.Meta.name : String := "slider"

/-- `Meta.namespace` of `XmileSlider` (src line 33): the fixed primary namespace,
`xmile_globals.XMILE_NAMESPACE`. (`namespaceUri` because `namespace` is a Lean
keyword.) -/
def XmileSlider.Meta.namespaceUri : String := XMILE_NAMESPACE

/-! ## Per-field static metadata -/

/-- The XML role of a field (`metadata["type"]` in the source): serialized on the
opening tag, or as a child tag. -/
inductive XmlRole where
  | attribute
  | element
deriving DecidableEq

/-- The declared type of a field, up to the four scalar shapes and the three nested
records. -/
inductive FieldTy where
  | bool
  | numeric
  | int
  | str
  | formatRec
  | entityRec
  | resetToRec
deriving DecidableEq

/-- Static metadata of one dataclass field: its name, declared type, XML role, and
optional per-field namespace. -/
structure FieldMeta where
  name : String
  ty : FieldTy
  role : XmlRole
  ns : Option String
deriving DecidableEq

/-- The per-field metadata of `XmileSlider`, transcribed from the source field
declarations (src lines 35–225) in declaration order. -/
def XmileSlider.fieldsMeta : List FieldMeta := [
  ⟨"show_name", .bool, .attribute, none⟩,
  ⟨"conditional_entity", .str, .attribute, some ISEE_NAMESPACE⟩,
  ⟨"increment", .numeric, .attribute, none⟩,
  ⟨"width", .numeric, .attribute, none⟩,
  ⟨"label_side", .str, .attribute, none⟩,
  ⟨"y", .numeric, .attribute, none⟩,
  ⟨"wrap_title", .bool, .attribute, none⟩,
  ⟨"always_show_hover_tip", .bool, .attribute, some ISEE_NAMESPACE⟩,
  ⟨"input_expands", .bool, .attribute, none⟩,
  ⟨"title", .str, .attribute, none⟩,
  ⟨"x", .numeric, .attribute, none⟩,
  ⟨"uid", .int, .attribute, none⟩,
  ⟨"show_hover_tip", .str, .attribute, some ISEE_NAMESPACE⟩,
  ⟨"vertical", .bool, .attribute, none⟩,
  ⟨"fancy_appearance", .bool, .attribute, some ISEE_NAMESPACE⟩,
  ⟨"height", .numeric, .attribute, none⟩,
  ⟨"max", .numeric, .attribute, none⟩,
  ⟨"color", .str, .attribute, none⟩,
  ⟨"font_weight", .str, .attribute, none⟩,
  ⟨"font_color", .str, .attribute, none⟩,
  ⟨"background", .str, .attribute, none⟩,
  ⟨"font_family", .str, .attribute, none⟩,
  ⟨"font_size", .str, .attribute, none⟩,
  ⟨"num_ticks", .int, .attribute, none⟩,
  ⟨"input_width", .int, .attribute, none⟩,
  ⟨"navigate_to", .bool, .attribute, some ISEE_NAMESPACE⟩,
  ⟨"min", .numeric, .attribute, none⟩,
  ⟨"z_index", .int, .attribute, none⟩,
  ⟨"format", .formatRec, .element, none⟩,
  ⟨"entity", .entityRec, .element, none⟩,
  ⟨"reset_to", .resetToRec, .element, none⟩]

/-- The scalar (attribute-role) fields of the record, with their declared types. -/
def XmileSlider.scalarFields : List (String × FieldTy) :=
  (XmileSlider.fieldsMeta.filter (fun f => f.role = XmlRole.attribute)).map
    (fun f => (f.name, f.ty))

/-- The scalar-field enumeration exactly as the spec's data model words it
(spec section 3): seven boolean flags, seven integer-or-float numerics, four
integers, nine strings. -/
def specScalarFields : List (String × FieldTy) := [
  ("show_name", .bool), ("wrap_title", .bool), ("always_show_hover_tip", .bool),
  ("input_expands", .bool), ("vertical", .bool), ("fancy_appearance", .bool),
  ("navigate_to", .bool),
  ("increment", .numeric), ("width", .numeric), ("y", .numeric), ("height", .numeric),
  ("max", .numeric), ("min", .numeric), ("x", .numeric),
  ("uid", .int), ("num_ticks", .int), ("input_width", .int), ("z_index", .int),
  ("label_side", .str), ("title", .str), ("show_hover_tip", .str), ("color", .str),
  ("font_weight", .str), ("font_color", .str), ("background", .str),
  ("font_family", .str), ("font_size", .str)]

/-! ## The serialization engine

Modelled from the spec (sections 1, 6): the generic engine walks the field metadata,
emitting each set field as an attribute (under its per-field namespace, with its
lexical form) or a child element, and on reading fills the record field by field,
rejecting malformed values. -/

/-- The attribute emitted for one optional field: nothing when unset. -/
def optAttr (n : String) (ns : Option String) : Option String → List XmlAttr
  | none => []
  | some v => [⟨n, ns, v⟩]

/-- `first-set-wins` combination of an update value with an old field value. -/
def optOr {α : Type} : Option α → Option α → Option α
  | some x, _ => some x
  | none, b => b

theorem optOr_none_right {α : Type} (v : Option α) : optOr v none = v := by
  cases v <;> rfl

/-- The child element emitted for the `format` field. -/
def XmileFormat.toXml (f : XmileFormat) : XmlChild := ⟨"format", f.attrs⟩

/-- The child element emitted for the `entity` field. -/
def XmileEntity.toXml (e : XmileEntity) : XmlChild := ⟨"entity", optAttr "name" none e.name⟩

/-- The child element emitted for the `reset_to` field. -/
def XmileResetTo.toXml (r : XmileResetTo) : XmlChild :=
  ⟨"reset_to", optAttr "value" none r.value⟩

/-- The children emitted for one optional element field: nothing when unset. -/
def optChild {α : Type} (f : α → XmlChild) : Option α → List XmlChild
  | none => []
  | some v => [f v]

/-- Serialize a slider record to its XML element: the fixed tag name and namespace,
one attribute per set scalar field (in declaration order, each under its declared
per-field namespace and in its type's lexical form), one child per set element
field. -/
def XmileSlider.serialize (s : XmileSlider) : XmlElem where
  name := XmileSlider.Meta.name
  ns := XmileSlider.Meta.namespaceUri
  attrs :=
    optAttr "show_name" none (s.show_name.map boolLex)
    ++ optAttr "conditional_entity" (some ISEE_NAMESPACE) s.conditional_entity
    ++ optAttr "increment" none (s.increment.map numLex)
    ++ optAttr "width" none (s.width.map numLex)
    ++ optAttr "label_side" none s.label_side
    ++ optAttr "y" none (s.y.map numLex)
    ++ optAttr "wrap_title" none (s.wrap_title.map boolLex)
    ++ optAttr "always_show_hover_tip" (some ISEE_NAMESPACE) (s.always_show_hover_tip.map boolLex)
    ++ optAttr "input_expands" none (s.input_expands.map boolLex)
    ++ optAttr "title" none s.title
    ++ optAttr "x" none (s.x.map numLex)
    ++ optAttr "uid" none (s.uid.map intLex)
    ++ optAttr "show_hover_tip" (some ISEE_NAMESPACE) s.show_hover_tip
    ++ optAttr "vertical" none (s.vertical.map boolLex)
    ++ optAttr "fancy_appearance" (some ISEE_NAMESPACE) (s.fancy_appearance.map boolLex)
    ++ optAttr "height" none (s.height.map numLex)
    ++ optAttr "max" none (s.max.map numLex)
    ++ optAttr "color" none s.color
    ++ optAttr "font_weight" none s.font_weight
    ++ optAttr "font_color" none s.font_color
    ++ optAttr "background" none s.background
    ++ optAttr "font_family" none s.font_family
    ++ optAttr "font_size" none s.font_size
    ++ optAttr "num_ticks" none (s.num_ticks.map intLex)
    ++ optAttr "input_width" none (s.input_width.map intLex)
    ++ optAttr "navigate_to" (some ISEE_NAMESPACE) (s.navigate_to.map boolLex)
    ++ optAttr "min" none (s.min.map numLex)
    ++ optAttr "z_index" none (s.z_index.map intLex)
  children :=
    optChild XmileFormat.toXml s.format
    ++ optChild XmileEntity.toXml s.entity
    ++ optChild XmileResetTo.toXml s.reset_to

/-- Apply one XML attribute to the record under construction: dispatch on the
attribute's namespace and name per the field metadata, parse its value in the
field's lexical form, set the field; unknown attributes and malformed values are
rejected. -/
def applyAttr (σ : XmileSlider) (a : XmlAttr) : Option XmileSlider :=
  if a.ns = none ∧ a.name = "show_name" then
    (parseBool a.value).map fun b => {σ with show_name := some b}
  else if a.ns = some ISEE_NAMESPACE ∧ a.name = "conditional_entity" then
    some {σ with conditional_entity := some a.value}
  else if a.ns = none ∧ a.name = "increment" then
    (parseNum a.value).map fun v => {σ with increment := some v}
  else if a.ns = none ∧ a.name = "width" then
    (parseNum a.value).map fun v => {σ with width := some v}
  else if a.ns = none ∧ a.name = "label_side" then
    some {σ with label_side := some a.value}
  else if a.ns = none ∧ a.name = "y" then
    (parseNum a.value).map fun v => {σ with y := some v}
  else if a.ns = none ∧ a.name = "wrap_title" then
    (parseBool a.value).map fun b => {σ with wrap_title := some b}
  else if a.ns = some ISEE_NAMESPACE ∧ a.name = "always_show_hover_tip" then
    (parseBool a.value).map fun b => {σ with always_show_hover_tip := some b}
  else if a.ns = none ∧ a.name = "input_expands" then
    (parseBool a.value).map fun b => {σ with input_expands := some b}
  else if a.ns = none ∧ a.name = "title" then
    some {σ with title := some a.value}
  else if a.ns = none ∧ a.name = "x" then
    (parseNum a.value).map fun v => {σ with x := some v}
  else if a.ns = none ∧ a.name = "uid" then
    (parseInt a.value).map fun n => {σ with uid := some n}
  else if a.ns = some ISEE_NAMESPACE ∧ a.name = "show_hover_tip" then
    some {σ with show_hover_tip := some a.value}
  else if a.ns = none ∧ a.name = "vertical" then
    (parseBool a.value).map fun b => {σ with vertical := some b}
  else if a.ns = some ISEE_NAMESPACE ∧ a.name = "fancy_appearance" then
    (parseBool a.value).map fun b => {σ with fancy_appearance := some b}
  else if a.ns = none ∧ a.name = "height" then
    (parseNum a.value).map fun v => {σ with height := some v}
  else if a.ns = none ∧ a.name = "max" then
    (parseNum a.value).map fun v => {σ with max := some v}
  else if a.ns = none ∧ a.name = "color" then
    some {σ with color := some a.value}
  else if a.ns = none ∧ a.name = "font_weight" then
    some {σ with font_weight := some a.value}
  else if a.ns = none ∧ a.name = "font_color" then
    some {σ with font_color := some a.value}
  else if a.ns = none ∧ a.name = "background" then
    some {σ with background := some a.value}
  else if a.ns = none ∧ a.name = "font_family" then
    some {σ with font_family := some a.value}
  else if a.ns = none ∧ a.name = "font_size" then
    some {σ with font_size := some a.value}
  else if a.ns = none ∧ a.name = "num_ticks" then
    (parseInt a.value).map fun n => {σ with num_ticks := some n}
  else if a.ns = none ∧ a.name = "input_width" then
    (parseInt a.value).map fun n => {σ with input_width := some n}
  else if a.ns = some ISEE_NAMESPACE ∧ a.name = "navigate_to" then
    (parseBool a.value).map fun b => {σ with navigate_to := some b}
  else if a.ns = none ∧ a.name = "min" then
    (parseNum a.value).map fun v => {σ with min := some v}
  else if a.ns = none ∧ a.name = "z_index" then
    (parseInt a.value).map fun n => {σ with z_index := some n}
  else none

/-- Fold the attribute list into the record, left to right. -/
def processAttrs : List XmlAttr → XmileSlider → Option XmileSlider
  | [], σ => some σ
  | a :: rest, σ =>
    match applyAttr σ a with
    | some σ2 => processAttrs rest σ2
    | none => none

/-- Apply one child element to the record under construction. -/
def applyChild (σ : XmileSlider) (c : XmlChild) : Option XmileSlider :=
  if c.name = "format" then some {σ with format := some ⟨c.attrs⟩}
  else if c.name = "entity" then
    match c.attrs with
    | [] => some {σ with entity := some ⟨none⟩}
    | [a] =>
      if a.name = "name" ∧ a.ns = none then some {σ with entity := some ⟨some a.value⟩}
      else none
    | _ => none
  else if c.name = "reset_to" then
    match c.attrs with
    | [] => some {σ with reset_to := some ⟨none⟩}
    | [a] =>
      if a.name = "value" ∧ a.ns = none then some {σ with reset_to := some ⟨some a.value⟩}
      else none
    | _ => none
  else none

/-- Fold the child-element list into the record, left to right. -/
def processChildren : List XmlChild → XmileSlider → Option XmileSlider
  | [], σ => some σ
  | c :: rest, σ =>
    match applyChild σ c with
    | some σ2 => processChildren rest σ2
    | none => none

/-- Deserialize an XML element into a slider record: the tag name and namespace must
be the fixed constants, then the attributes and children are folded in starting from
the all-unset record. -/
def XmileSlider.deserialize (e : XmlElem) : Option XmileSlider :=
  if e.name = XmileSlider.Meta.name ∧ e.ns = XmileSlider.Meta.namespaceUri then
    match processAttrs e.attrs {} with
    | some σ => processChildren e.children σ
    | none => none
  else none

theorem procAttrs_show_name (σ : XmileSlider) (v : Option Bool) (rest : List XmlAttr) :
    processAttrs (optAttr "show_name" none (v.map boolLex) ++ rest) σ =
      processAttrs rest {σ with show_name := optOr v σ.show_name} := by
  cases v with
  | none => rfl
  | some b =>
    show processAttrs (⟨"show_name", none, boolLex b⟩ :: rest) σ = _
    simp [processAttrs, applyAttr, parseBool_boolLex, optOr]

theorem procAttrs_conditional_entity (σ : XmileSlider) (v : Option String) (rest : List XmlAttr) :
    processAttrs (optAttr "conditional_entity" (some ISEE_NAMESPACE) (v) ++ rest) σ =
      processAttrs rest {σ with conditional_entity := optOr v σ.conditional_entity} := by
  cases v with
  | none => rfl
  | some t =>
    show processAttrs (⟨"conditional_entity", some ISEE_NAMESPACE, t⟩ :: rest) σ = _
    simp [processAttrs, applyAttr, optOr]

theorem procAttrs_increment (σ : XmileSlider) (v : Option UnionIntFloat) (rest : List XmlAttr) :
    processAttrs (optAttr "increment" none (v.map numLex) ++ rest) σ =
      processAttrs rest {σ with increment := optOr v σ.increment} := by
  cases v with
  | none => rfl
  | some w =>
    show processAttrs (⟨"increment", none, numLex w⟩ :: rest) σ = _
    simp [processAttrs, applyAttr, optOr, parseNum_numLex]

theorem procAttrs_width (σ : XmileSlider) (v : Option UnionIntFloat) (rest : List XmlAttr) :
    processAttrs (optAttr "width" none (v.map numLex) ++ rest) σ =
      processAttrs rest {σ with width := optOr v σ.width} := by
  cases v with
  | none => rfl
  | some w =>
    show processAttrs (⟨"width", none, numLex w⟩ :: rest) σ = _
    simp [processAttrs, applyAttr, optOr, parseNum_numLex]

theorem procAttrs_label_side (σ : XmileSlider) (v : Option String) (rest : List XmlAttr) :
    processAttrs (optAttr "label_side" none (v) ++ rest) σ =
      processAttrs rest {σ with label_side := optOr v σ.label_side} := by
  cases v with
  | none => rfl
  | some t =>
    show processAttrs (⟨"label_side", none, t⟩ :: rest) σ = _
    simp [processAttrs, applyAttr, optOr]

theorem procAttrs_y (σ : XmileSlider) (v : Option UnionIntFloat) (rest : List XmlAttr) :
    processAttrs (optAttr "y" none (v.map numLex) ++ rest) σ =
      processAttrs rest {σ with y := optOr v σ.y} := by
  cases v with
  | none => rfl
  | some w =>
    show processAttrs (⟨"y", none, numLex w⟩ :: rest) σ = _
    simp [processAttrs, applyAttr, optOr, parseNum_numLex]

theorem procAttrs_wrap_title (σ : XmileSlider) (v : Option Bool) (rest : List XmlAttr) :
    processAttrs (optAttr "wrap_title" none (v.map boolLex) ++ rest) σ =
      processAttrs rest {σ with wrap_title := optOr v σ.wrap_title} := by
  cases v with
  | none => rfl
  | some b =>
    show processAttrs (⟨"wrap_title", none, boolLex b⟩ :: rest) σ = _
    simp [processAttrs, applyAttr, optOr, parseBool_boolLex]

theorem procAttrs_always_show_hover_tip (σ : XmileSlider) (v : Option Bool) (rest : List XmlAttr) :
    processAttrs (optAttr "always_show_hover_tip" (some ISEE_NAMESPACE) (v.map boolLex) ++ rest) σ =
      processAttrs rest {σ with always_show_hover_tip := optOr v σ.always_show_hover_tip} := by
  cases v with
  | none => rfl
  | some b =>
    show processAttrs (⟨"always_show_hover_tip", some ISEE_NAMESPACE, boolLex b⟩ :: rest) σ = _
    simp [processAttrs, applyAttr, optOr, parseBool_boolLex]

theorem procAttrs_input_expands (σ : XmileSlider) (v : Option Bool) (rest : List XmlAttr) :
    processAttrs (optAttr "input_expands" none (v.map boolLex) ++ rest) σ =
      processAttrs rest {σ with input_expands := optOr v σ.input_expands} := by
  cases v with
  | none => rfl
  | some b =>
    show processAttrs (⟨"input_expands", none, boolLex b⟩ :: rest) σ = _
    simp [processAttrs, applyAttr, optOr, parseBool_boolLex]

theorem procAttrs_title (σ : XmileSlider) (v : Option String) (rest : List XmlAttr) :
    processAttrs (optAttr "title" none (v) ++ rest) σ =
      processAttrs rest {σ with title := optOr v σ.title} := by
  cases v with
  | none => rfl
  | some t =>
    show processAttrs (⟨"title", none, t⟩ :: rest) σ = _
    simp [processAttrs, applyAttr, optOr]

theorem procAttrs_x (σ : XmileSlider) (v : Option UnionIntFloat) (rest : List XmlAttr) :
    processAttrs (optAttr "x" none (v.map numLex) ++ rest) σ =
      processAttrs rest {σ with x := optOr v σ.x} := by
  cases v with
  | none => rfl
  | some w =>
    show processAttrs (⟨"x", none, numLex w⟩ :: rest) σ = _
    simp [processAttrs, applyAttr, optOr, parseNum_numLex]

theorem procAttrs_uid (σ : XmileSlider) (v : Option Int) (rest : List XmlAttr) :
    processAttrs (optAttr "uid" none (v.map intLex) ++ rest) σ =
      processAttrs rest {σ with uid := optOr v σ.uid} := by
  cases v with
  | none => rfl
  | some m =>
    show processAttrs (⟨"uid", none, intLex m⟩ :: rest) σ = _
    simp [processAttrs, applyAttr, optOr, parseInt_intLex]

theorem procAttrs_show_hover_tip (σ : XmileSlider) (v : Option String) (rest : List XmlAttr) :
    processAttrs (optAttr "show_hover_tip" (some ISEE_NAMESPACE) (v) ++ rest) σ =
      processAttrs rest {σ with show_hover_tip := optOr v σ.show_hover_tip} := by
  cases v with
  | none => rfl
  | some t =>
    show processAttrs (⟨"show_hover_tip", some ISEE_NAMESPACE, t⟩ :: rest) σ = _
    simp [processAttrs, applyAttr, optOr]

theorem procAttrs_vertical (σ : XmileSlider) (v : Option Bool) (rest : List XmlAttr) :
    processAttrs (optAttr "vertical" none (v.map boolLex) ++ rest) σ =
      processAttrs rest {σ with vertical := optOr v σ.vertical} := by
  cases v with
  | none => rfl
  | some b =>
    show processAttrs (⟨"vertical", none, boolLex b⟩ :: rest) σ = _
    simp [processAttrs, applyAttr, optOr, parseBool_boolLex]

theorem procAttrs_fancy_appearance (σ : XmileSlider) (v : Option Bool) (rest : List XmlAttr) :
    processAttrs (optAttr "fancy_appearance" (some ISEE_NAMESPACE) (v.map boolLex) ++ rest) σ =
      processAttrs rest {σ with fancy_appearance := optOr v σ.fancy_appearance} := by
  cases v with
  | none => rfl
  | some b =>
    show processAttrs (⟨"fancy_appearance", some ISEE_NAMESPACE, boolLex b⟩ :: rest) σ = _
    simp [processAttrs, applyAttr, optOr, parseBool_boolLex]

theorem procAttrs_height (σ : XmileSlider) (v : Option UnionIntFloat) (rest : List XmlAttr) :
    processAttrs (optAttr "height" none (v.map numLex) ++ rest) σ =
      processAttrs rest {σ with height := optOr v σ.height} := by
  cases v with
  | none => rfl
  | some w =>
    show processAttrs (⟨"height", none, numLex w⟩ :: rest) σ = _
    simp [processAttrs, applyAttr, optOr, parseNum_numLex]

theorem procAttrs_max (σ : XmileSlider) (v : Option UnionIntFloat) (rest : List XmlAttr) :
    processAttrs (optAttr "max" none (v.map numLex) ++ rest) σ =
      processAttrs rest {σ with max := optOr v σ.max} := by
  cases v with
  | none => rfl
  | some w =>
    show processAttrs (⟨"max", none, numLex w⟩ :: rest) σ = _
    simp [processAttrs, applyAttr, optOr, parseNum_numLex]

theorem procAttrs_color (σ : XmileSlider) (v : Option String) (rest : List XmlAttr) :
    processAttrs (optAttr "color" none (v) ++ rest) σ =
      processAttrs rest {σ with color := optOr v σ.color} := by
  cases v with
  | none => rfl
  | some t =>
    show processAttrs (⟨"color", none, t⟩ :: rest) σ = _
    simp [processAttrs, applyAttr, optOr]

theorem procAttrs_font_weight (σ : XmileSlider) (v : Option String) (rest : List XmlAttr) :
    processAttrs (optAttr "font_weight" none (v) ++ rest) σ =
      processAttrs rest {σ with font_weight := optOr v σ.font_weight} := by
  cases v with
  | none => rfl
  | some t =>
    show processAttrs (⟨"font_weight", none, t⟩ :: rest) σ = _
    simp [processAttrs, applyAttr, optOr]

theorem procAttrs_font_color (σ : XmileSlider) (v : Option String) (rest : List XmlAttr) :
    processAttrs (optAttr "font_color" none (v) ++ rest) σ =
      processAttrs rest {σ with font_color := optOr v σ.font_color} := by
  cases v with
  | none => rfl
  | some t =>
    show processAttrs (⟨"font_color", none, t⟩ :: rest) σ = _
    simp [processAttrs, applyAttr, optOr]

theorem procAttrs_background (σ : XmileSlider) (v : Option String) (rest : List XmlAttr) :
    processAttrs (optAttr "background" none (v) ++ rest) σ =
      processAttrs rest {σ with background := optOr v σ.background} := by
  cases v with
  | none => rfl
  | some t =>
    show processAttrs (⟨"background", none, t⟩ :: rest) σ = _
    simp [processAttrs, applyAttr, optOr]

theorem procAttrs_font_family (σ : XmileSlider) (v : Option String) (rest : List XmlAttr) :
    processAttrs (optAttr "font_family" none (v) ++ rest) σ =
      processAttrs rest {σ with font_family := optOr v σ.font_family} := by
  cases v with
  | none => rfl
  | some t =>
    show processAttrs (⟨"font_family", none, t⟩ :: rest) σ = _
    simp [processAttrs, applyAttr, optOr]

theorem procAttrs_font_size (σ : XmileSlider) (v : Option String) (rest : List XmlAttr) :
    processAttrs (optAttr "font_size" none (v) ++ rest) σ =
      processAttrs rest {σ with font_size := optOr v σ.font_size} := by
  cases v with
  | none => rfl
  | some t =>
    show processAttrs (⟨"font_size", none, t⟩ :: rest) σ = _
    simp [processAttrs, applyAttr, optOr]

theorem procAttrs_num_ticks (σ : XmileSlider) (v : Option Int) (rest : List XmlAttr) :
    processAttrs (optAttr "num_ticks" none (v.map intLex) ++ rest) σ =
      processAttrs rest {σ with num_ticks := optOr v σ.num_ticks} := by
  cases v with
  | none => rfl
  | some m =>
    show processAttrs (⟨"num_ticks", none, intLex m⟩ :: rest) σ = _
    simp [processAttrs, applyAttr, optOr, parseInt_intLex]

theorem procAttrs_input_width (σ : XmileSlider) (v : Option Int) (rest : List XmlAttr) :
    processAttrs (optAttr "input_width" none (v.map intLex) ++ rest) σ =
      processAttrs rest {σ with input_width := optOr v σ.input_width} := by
  cases v with
  | none => rfl
  | some m =>
    show processAttrs (⟨"input_width", none, intLex m⟩ :: rest) σ = _
    simp [processAttrs, applyAttr, optOr, parseInt_intLex]

theorem procAttrs_navigate_to (σ : XmileSlider) (v : Option Bool) (rest : List XmlAttr) :
    processAttrs (optAttr "navigate_to" (some ISEE_NAMESPACE) (v.map boolLex) ++ rest) σ =
      processAttrs rest {σ with navigate_to := optOr v σ.navigate_to} := by
  cases v with
  | none => rfl
  | some b =>
    show processAttrs (⟨"navigate_to", some ISEE_NAMESPACE, boolLex b⟩ :: rest) σ = _
    simp [processAttrs, applyAttr, optOr, parseBool_boolLex]

theorem procAttrs_min (σ : XmileSlider) (v : Option UnionIntFloat) (rest : List XmlAttr) :
    processAttrs (optAttr "min" none (v.map numLex) ++ rest) σ =
      processAttrs rest {σ with min := optOr v σ.min} := by
  cases v with
  | none => rfl
  | some w =>
    show processAttrs (⟨"min", none, numLex w⟩ :: rest) σ = _
    simp [processAttrs, applyAttr, optOr, parseNum_numLex]

theorem procAttrs_z_index (σ : XmileSlider) (v : Option Int) (rest : List XmlAttr) :
    processAttrs (optAttr "z_index" none (v.map intLex) ++ rest) σ =
      processAttrs rest {σ with z_index := optOr v σ.z_index} := by
  cases v with
  | none => rfl
  | some m =>
    show processAttrs (⟨"z_index", none, intLex m⟩ :: rest) σ = _
    simp [processAttrs, applyAttr, optOr, parseInt_intLex]

theorem procChildren_format (σ : XmileSlider) (v : Option XmileFormat)
    (rest : List XmlChild) :
    processChildren (optChild XmileFormat.toXml v ++ rest) σ =
      processChildren rest {σ with format := optOr v σ.format} := by
  cases v with
  | none => rfl
  | some f =>
    show processChildren (XmileFormat.toXml f :: rest) σ = _
    simp [processChildren, applyChild, XmileFormat.toXml, optOr]

theorem procChildren_entity (σ : XmileSlider) (v : Option XmileEntity)
    (rest : List XmlChild) :
    processChildren (optChild XmileEntity.toXml v ++ rest) σ =
      processChildren rest {σ with entity := optOr v σ.entity} := by
  cases v with
  | none => rfl
  | some e =>
    obtain ⟨nm⟩ := e
    cases nm with
    | none =>
      show processChildren (XmileEntity.toXml ⟨none⟩ :: rest) σ = _
      simp [processChildren, applyChild, XmileEntity.toXml, optAttr, optOr]
    | some t =>
      show processChildren (XmileEntity.toXml ⟨some t⟩ :: rest) σ = _
      simp [processChildren, applyChild, XmileEntity.toXml, optAttr, optOr]

theorem procChildren_reset_to (σ : XmileSlider) (v : Option XmileResetTo)
    (rest : List XmlChild) :
    processChildren (optChild XmileResetTo.toXml v ++ rest) σ =
      processChildren rest {σ with reset_to := optOr v σ.reset_to} := by
  cases v with
  | none => rfl
  | some r =>
    obtain ⟨t?⟩ := r
    cases t? with
    | none =>
      show processChildren (XmileResetTo.toXml ⟨none⟩ :: rest) σ = _
      simp [processChildren, applyChild, XmileResetTo.toXml, optAttr, optOr]
    | some t =>
      show processChildren (XmileResetTo.toXml ⟨some t⟩ :: rest) σ = _
      simp [processChildren, applyChild, XmileResetTo.toXml, optAttr, optOr]

theorem XmileSlider.deserialize_serialize (s : XmileSlider) :
    XmileSlider.deserialize (XmileSlider.serialize s) = some s := by
  unfold XmileSlider.deserialize XmileSlider.serialize
  rw [if_pos ⟨rfl, rfl⟩]
  simp only [List.append_assoc]
  rw [procAttrs_show_name]
  dsimp only
  rw [procAttrs_conditional_entity]
  dsimp only
  rw [procAttrs_increment]
  dsimp only
  rw [procAttrs_width]
  dsimp only
  rw [procAttrs_label_side]
  dsimp only
  rw [procAttrs_y]
  dsimp only
  rw [procAttrs_wrap_title]
  dsimp only
  rw [procAttrs_always_show_hover_tip]
  dsimp only
  rw [procAttrs_input_expands]
  dsimp only
  rw [procAttrs_title]
  dsimp only
  rw [procAttrs_x]
  dsimp only
  rw [procAttrs_uid]
  dsimp only
  rw [procAttrs_show_hover_tip]
  dsimp only
  rw [procAttrs_vertical]
  dsimp only
  rw [procAttrs_fancy_appearance]
  dsimp only
  rw [procAttrs_height]
  dsimp only
  rw [procAttrs_max]
  dsimp only
  rw [procAttrs_color]
  dsimp only
  rw [procAttrs_font_weight]
  dsimp only
  rw [procAttrs_font_color]
  dsimp only
  rw [procAttrs_background]
  dsimp only
  rw [procAttrs_font_family]
  dsimp only
  rw [procAttrs_font_size]
  dsimp only
  rw [procAttrs_num_ticks]
  dsimp only
  rw [procAttrs_input_width]
  dsimp only
  rw [procAttrs_navigate_to]
  dsimp only
  rw [procAttrs_min]
  dsimp only
  rw [← List.append_nil (optAttr "z_index" none (s.z_index.map intLex)),
    procAttrs_z_index]
  dsimp only
  simp only [processAttrs]
  rw [procChildren_format]
  dsimp only
  rw [procChildren_entity]
  dsimp only
  rw [← List.append_nil (optChild XmileResetTo.toXml s.reset_to), procChildren_reset_to]
  dsimp only
  simp only [processChildren, optOr_none_right]

/-! ## The claims -/

/-- C1: for every `XmileSlider` instance with an arbitrary subset of fields populated,
serializing it to XML and then deserializing that XML yields an instance equal
field-by-field to the original, every unset (`None`) field remaining unset. -/
theorem C1_serialize_deserialize_round_trip (s : XmileSlider) :
    XmileSlider.deserialize (XmileSlider.serialize s) = some s :=
  XmileSlider.deserialize_serialize s

/-- C2 counterexample: the claim's enumeration of scalar fields is not exhaustive —
`conditional_entity` is an optional-string attribute field of the record (src lines
41–47) but is absent from the spec's enumeration, so the record's scalar fields are
not a permutation of the enumerated ones. -/
theorem C2_scalar_fields_counterexample :
    ("conditional_entity", FieldTy.str) ∈ XmileSlider.scalarFields ∧
    ("conditional_entity", FieldTy.str) ∉ specScalarFields ∧
    ¬ XmileSlider.scalarFields.Perm specScalarFields := by
  decide

/-- C2 (amended): the scalar fields of the record and their types are exactly the
spec's enumeration plus the optional string `conditional_entity`. -/
theorem C2_scalar_fields_amended :
    XmileSlider.scalarFields.Perm
      (("conditional_entity", FieldTy.str) :: specScalarFields) := by
  decide

/-- C3: the fields tagged with the secondary (ISEE vendor) namespace are exactly
`always_show_hover_tip`, `show_hover_tip`, `conditional_entity`, `fancy_appearance`
and `navigate_to`; every other field carries no per-field namespace tag (the filter
below keeps precisely the tagged fields), and the tag is recorded per-field in the
static metadata table `XmileSlider.fieldsMeta`. -/
theorem C3_vendor_namespace_fields :
    (((XmileSlider.fieldsMeta.filter (fun f => f.ns ≠ none)).map FieldMeta.name).Perm
      ["always_show_hover_tip", "show_hover_tip", "conditional_entity",
       "fancy_appearance", "navigate_to"]) ∧
    ((XmileSlider.fieldsMeta.filter (fun f => f.ns ≠ none)).all
      (fun f => f.ns = some ISEE_NAMESPACE) = true) := by
  decide

/-- C4: every field carries exactly one of the two XML roles; the element-role fields
are exactly the three nested records `format`, `entity`, `reset_to`, each independently
optional, and every scalar field has the attribute role. -/
theorem C4_xml_roles :
    (XmileSlider.fieldsMeta.all (fun f =>
      (f.role == XmlRole.attribute).xor (f.role == XmlRole.element)) = true) ∧
    ((XmileSlider.fieldsMeta.filter (fun f => f.role = XmlRole.element)).map
      FieldMeta.name = ["format", "entity", "reset_to"]) ∧
    ((XmileSlider.fieldsMeta.filter (fun f => f.role = XmlRole.attribute)).map
      FieldMeta.name =
      ["show_name", "conditional_entity", "increment", "width", "label_side", "y",
       "wrap_title", "always_show_hover_tip", "input_expands", "title", "x", "uid",
       "show_hover_tip", "vertical", "fancy_appearance", "height", "max", "color",
       "font_weight", "font_color", "background", "font_family", "font_size",
       "num_ticks", "input_width", "navigate_to", "min", "z_index"]) ∧
    (∀ (f : Option XmileFormat) (e : Option XmileEntity) (r : Option XmileResetTo),
      ∃ s : XmileSlider, s.format = f ∧ s.entity = e ∧ s.reset_to = r) := by
  refine ⟨by decide, by decide, by decide, fun f e r => ?_⟩
  exact ⟨{ format := f, entity := e, reset_to := r }, rfl, rfl, rfl⟩

/-- C5: the record's own XML tag name and primary namespace are fixed class-level
constants — `"slider"` and the XMILE v1.0 schema namespace — identical for every
instance (every serialized element carries exactly them) and not configurable per
instance. -/
theorem C5_fixed_tag_name_and_namespace :
    XmileSlider.Meta.name = "slider" ∧
    XmileSlider.Meta.namespaceUri = XMILE_NAMESPACE ∧
    XMILE_NAMESPACE = "http://docs.oasis-open.org/xmile/ns/XMILE/v1.0" ∧
    XMILE_NAMESPACE = NAMESPACE_OF_MODULE ∧
    ∀ s : XmileSlider,
      (XmileSlider.serialize s).name = XmileSlider.Meta.name ∧
      (XmileSlider.serialize s).ns = XmileSlider.Meta.namespaceUri :=
  ⟨rfl, rfl, rfl, rfl, fun _ => ⟨rfl, rfl⟩⟩

/-- C6: constructing `XmileSlider` with no arguments succeeds and yields an instance with
every field unset (`None`); such an empty instance serializes to a bare `<slider/>`
element with no attributes and no children. -/
theorem C6_empty_construction :
    (({} : XmileSlider).show_name = none ∧
    ({} : XmileSlider).conditional_entity = none ∧
    ({} : XmileSlider).increment = none ∧
    ({} : XmileSlider).width = none ∧
    ({} : XmileSlider).label_side = none ∧
    ({} : XmileSlider).y = none ∧
    ({} : XmileSlider).wrap_title = none ∧
    ({} : XmileSlider).always_show_hover_tip = none ∧
    ({} : XmileSlider).input_expands = none ∧
    ({} : XmileSlider).title = none ∧
    ({} : XmileSlider).x = none ∧
    ({} : XmileSlider).uid = none ∧
    ({} : XmileSlider).show_hover_tip = none ∧
    ({} : XmileSlider).vertical = none ∧
    ({} : XmileSlider).fancy_appearance = none ∧
    ({} : XmileSlider).height = none ∧
    ({} : XmileSlider).max = none ∧
    ({} : XmileSlider).color = none ∧
    ({} : XmileSlider).font_weight = none ∧
    ({} : XmileSlider).font_color = none ∧
    ({} : XmileSlider).background = none ∧
    ({} : XmileSlider).font_family = none ∧
    ({} : XmileSlider).font_size = none ∧
    ({} : XmileSlider).num_ticks = none ∧
    ({} : XmileSlider).input_width = none ∧
    ({} : XmileSlider).navigate_to = none ∧
    ({} : XmileSlider).min = none ∧
    ({} : XmileSlider).z_index = none ∧
    ({} : XmileSlider).format = none ∧
    ({} : XmileSlider).entity = none ∧
    ({} : XmileSlider).reset_to = none) ∧
    XmileSlider.serialize {} = ⟨"slider", XMILE_NAMESPACE, [], []⟩ := by
  exact ⟨⟨rfl, rfl, rfl, rfl, rfl, rfl, rfl, rfl, rfl, rfl, rfl, rfl, rfl, rfl, rfl, rfl, rfl, rfl, rfl, rfl, rfl, rfl, rfl, rfl, rfl, rfl, rfl, rfl, rfl, rfl, rfl⟩, by decide⟩

/-- A concrete slider with every `Union[int, float]` field set to the integer value 5,
used to instantiate the numeric-form-preservation theorem. -/
def sliderWithNumericFields : XmileSlider :=
  { increment := some (UnionIntFloat.asInt 5), width := some (UnionIntFloat.asInt 5),
    y := some (UnionIntFloat.asInt 5), height := some (UnionIntFloat.asInt 5),
    max := some (UnionIntFloat.asInt 5), min := some (UnionIntFloat.asInt 5),
    x := some (UnionIntFloat.asInt 5) }

/-- C7: each of the seven `Union[int, float]` fields (`increment`, `width`, `y`,
`height`, `max`, `min`, `x`) preserves integer versus floating-point form: whichever of
them is set serializes on its own attribute in the lexical form of its value, where the
integer form is the integer's decimal characters with no decimal point (so `5` emits
`"5"`, never `"5.0"`) and the decimal form always carries a decimal point (`5.5` emits
`"5.5"`). -/
theorem C7_numeric_form_preservation (s : XmileSlider) (v : UnionIntFloat) :
    (s.increment = some v →
      XmlAttr.mk "increment" none (numLex v) ∈ (XmileSlider.serialize s).attrs) ∧
    (s.width = some v →
      XmlAttr.mk "width" none (numLex v) ∈ (XmileSlider.serialize s).attrs) ∧
    (s.y = some v →
      XmlAttr.mk "y" none (numLex v) ∈ (XmileSlider.serialize s).attrs) ∧
    (s.height = some v →
      XmlAttr.mk "height" none (numLex v) ∈ (XmileSlider.serialize s).attrs) ∧
    (s.max = some v →
      XmlAttr.mk "max" none (numLex v) ∈ (XmileSlider.serialize s).attrs) ∧
    (s.min = some v →
      XmlAttr.mk "min" none (numLex v) ∈ (XmileSlider.serialize s).attrs) ∧
    (s.x = some v →
      XmlAttr.mk "x" none (numLex v) ∈ (XmileSlider.serialize s).attrs) ∧
    (∀ n : Int, numLex (UnionIntFloat.asInt n) = intLex n ∧
      '.' ∉ (numLex (UnionIntFloat.asInt n)).data) ∧
    (∀ (i : Int) (fr : List (Fin 10)),
      '.' ∈ (numLex (UnionIntFloat.asFloat i fr)).data) ∧
    numLex (UnionIntFloat.asInt 5) = "5" ∧
    numLex (UnionIntFloat.asFloat 5 [5]) = "5.5" := by
  refine ⟨fun h => ?_, fun h => ?_, fun h => ?_, fun h => ?_, fun h => ?_, fun h => ?_,
    fun h => ?_, fun n => ⟨rfl, intLexChars_no_dot n⟩, fun i fr => ?_, by decide, by decide⟩
  · simp [XmileSlider.serialize, h, optAttr]
  · simp [XmileSlider.serialize, h, optAttr]
  · simp [XmileSlider.serialize, h, optAttr]
  · simp [XmileSlider.serialize, h, optAttr]
  · simp [XmileSlider.serialize, h, optAttr]
  · simp [XmileSlider.serialize, h, optAttr]
  · simp [XmileSlider.serialize, h, optAttr]
  · simp [numLex, numLexChars, List.mem_append]

theorem C7_numeric_form_preservation_witness :
    XmlAttr.mk "increment" none (numLex (UnionIntFloat.asInt 5)) ∈
      (XmileSlider.serialize sliderWithNumericFields).attrs ∧
    XmlAttr.mk "width" none (numLex (UnionIntFloat.asInt 5)) ∈
      (XmileSlider.serialize sliderWithNumericFields).attrs ∧
    XmlAttr.mk "y" none (numLex (UnionIntFloat.asInt 5)) ∈
      (XmileSlider.serialize sliderWithNumericFields).attrs ∧
    XmlAttr.mk "height" none (numLex (UnionIntFloat.asInt 5)) ∈
      (XmileSlider.serialize sliderWithNumericFields).attrs ∧
    XmlAttr.mk "max" none (numLex (UnionIntFloat.asInt 5)) ∈
      (XmileSlider.serialize sliderWithNumericFields).attrs ∧
    XmlAttr.mk "min" none (numLex (UnionIntFloat.asInt 5)) ∈
      (XmileSlider.serialize sliderWithNumericFields).attrs ∧
    XmlAttr.mk "x" none (numLex (UnionIntFloat.asInt 5)) ∈
      (XmileSlider.serialize sliderWithNumericFields).attrs ∧
    numLex (UnionIntFloat.asInt 5) = "5" ∧
    numLex (UnionIntFloat.asFloat 5 [5]) = "5.5" := by
  obtain ⟨h1, h2, h3, h4, h5, h6, h7, -, -, h10, h11⟩ :=
    C7_numeric_form_preservation sliderWithNumericFields (UnionIntFloat.asInt 5)
  exact ⟨h1 rfl, h2 rfl, h3 rfl, h4 rfl, h5 rfl, h6 rfl, h7 rfl, h10, h11⟩


/-- C8: no operation of the record type itself fails: construction accepts any values
for any subset of fields with no validation, and field access returns exactly the
values assigned. (The Python dataclass generates only construction, equality and
representation; there is no validation hook, so every operation is total.) -/
theorem C8_construction_and_access_total
    (v_show_name : Option Bool) (v_conditional_entity : Option String)
    (v_increment : Option UnionIntFloat) (v_width : Option UnionIntFloat)
    (v_label_side : Option String) (v_y : Option UnionIntFloat)
    (v_wrap_title : Option Bool) (v_always_show_hover_tip : Option Bool)
    (v_input_expands : Option Bool) (v_title : Option String)
    (v_x : Option UnionIntFloat) (v_uid : Option Int)
    (v_show_hover_tip : Option String) (v_vertical : Option Bool)
    (v_fancy_appearance : Option Bool) (v_height : Option UnionIntFloat)
    (v_max : Option UnionIntFloat) (v_color : Option String)
    (v_font_weight : Option String) (v_font_color : Option String)
    (v_background : Option String) (v_font_family : Option String)
    (v_font_size : Option String) (v_num_ticks : Option Int)
    (v_input_width : Option Int) (v_navigate_to : Option Bool)
    (v_min : Option UnionIntFloat) (v_z_index : Option Int)
    (v_format : Option XmileFormat) (v_entity : Option XmileEntity)
    (v_reset_to : Option XmileResetTo) :
    ∃ s : XmileSlider, s.show_name = v_show_name ∧
      s.conditional_entity = v_conditional_entity ∧
      s.increment = v_increment ∧
      s.width = v_width ∧
      s.label_side = v_label_side ∧
      s.y = v_y ∧
      s.wrap_title = v_wrap_title ∧
      s.always_show_hover_tip = v_always_show_hover_tip ∧
      s.input_expands = v_input_expands ∧
      s.title = v_title ∧
      s.x = v_x ∧
      s.uid = v_uid ∧
      s.show_hover_tip = v_show_hover_tip ∧
      s.vertical = v_vertical ∧
      s.fancy_appearance = v_fancy_appearance ∧
      s.height = v_height ∧
      s.max = v_max ∧
      s.color = v_color ∧
      s.font_weight = v_font_weight ∧
      s.font_color = v_font_color ∧
      s.background = v_background ∧
      s.font_family = v_font_family ∧
      s.font_size = v_font_size ∧
      s.num_ticks = v_num_ticks ∧
      s.input_width = v_input_width ∧
      s.navigate_to = v_navigate_to ∧
      s.min = v_min ∧
      s.z_index = v_z_index ∧
      s.format = v_format ∧
      s.entity = v_entity ∧
      s.reset_to = v_reset_to :=
  ⟨XmileSlider.mk v_show_name v_conditional_entity v_increment v_width v_label_side v_y v_wrap_title v_always_show_hover_tip v_input_expands v_title v_x v_uid v_show_hover_tip v_vertical v_fancy_appearance v_height v_max v_color v_font_weight v_font_color v_background v_font_family v_font_size v_num_ticks v_input_width v_navigate_to v_min v_z_index v_format v_entity v_reset_to, rfl, rfl, rfl, rfl, rfl, rfl, rfl, rfl, rfl, rfl, rfl, rfl, rfl, rfl, rfl, rfl, rfl, rfl, rfl, rfl, rfl, rfl, rfl, rfl, rfl, rfl, rfl, rfl, rfl, rfl, rfl⟩

/-- C9: fields are independently settable and readable: updating any one field of any
instance yields the record whose named field holds the new value and whose other thirty
fields are unchanged. -/
theorem C9_field_updates_independent (s : XmileSlider) :
    (∀ v : Option Bool, {s with show_name := v} =
      XmileSlider.mk v s.conditional_entity s.increment s.width s.label_side s.y s.wrap_title s.always_show_hover_tip s.input_expands s.title s.x s.uid s.show_hover_tip s.vertical s.fancy_appearance s.height s.max s.color s.font_weight s.font_color s.background s.font_family s.font_size s.num_ticks s.input_width s.navigate_to s.min s.z_index s.format s.entity s.reset_to) ∧
    (∀ v : Option String, {s with conditional_entity := v} =
      XmileSlider.mk s.show_name v s.increment s.width s.label_side s.y s.wrap_title s.always_show_hover_tip s.input_expands s.title s.x s.uid s.show_hover_tip s.vertical s.fancy_appearance s.height s.max s.color s.font_weight s.font_color s.background s.font_family s.font_size s.num_ticks s.input_width s.navigate_to s.min s.z_index s.format s.entity s.reset_to) ∧
    (∀ v : Option UnionIntFloat, {s with increment := v} =
      XmileSlider.mk s.show_name s.conditional_entity v s.width s.label_side s.y s.wrap_title s.always_show_hover_tip s.input_expands s.title s.x s.uid s.show_hover_tip s.vertical s.fancy_appearance s.height s.max s.color s.font_weight s.font_color s.background s.font_family s.font_size s.num_ticks s.input_width s.navigate_to s.min s.z_index s.format s.entity s.reset_to) ∧
    (∀ v : Option UnionIntFloat, {s with width := v} =
      XmileSlider.mk s.show_name s.conditional_entity s.increment v s.label_side s.y s.wrap_title s.always_show_hover_tip s.input_expands s.title s.x s.uid s.show_hover_tip s.vertical s.fancy_appearance s.height s.max s.color s.font_weight s.font_color s.background s.font_family s.font_size s.num_ticks s.input_width s.navigate_to s.min s.z_index s.format s.entity s.reset_to) ∧
    (∀ v : Option String, {s with label_side := v} =
      XmileSlider.mk s.show_name s.conditional_entity s.increment s.width v s.y s.wrap_title s.always_show_hover_tip s.input_expands s.title s.x s.uid s.show_hover_tip s.vertical s.fancy_appearance s.height s.max s.color s.font_weight s.font_color s.background s.font_family s.font_size s.num_ticks s.input_width s.navigate_to s.min s.z_index s.format s.entity s.reset_to) ∧
    (∀ v : Option UnionIntFloat, {s with y := v} =
      XmileSlider.mk s.show_name s.conditional_entity s.increment s.width s.label_side v s.wrap_title s.always_show_hover_tip s.input_expands s.title s.x s.uid s.show_hover_tip s.vertical s.fancy_appearance s.height s.max s.color s.font_weight s.font_color s.background s.font_family s.font_size s.num_ticks s.input_width s.navigate_to s.min s.z_index s.format s.entity s.reset_to) ∧
    (∀ v : Option Bool, {s with wrap_title := v} =
      XmileSlider.mk s.show_name s.conditional_entity s.increment s.width s.label_side s.y v s.always_show_hover_tip s.input_expands s.title s.x s.uid s.show_hover_tip s.vertical s.fancy_appearance s.height s.max s.color s.font_weight s.font_color s.background s.font_family s.font_size s.num_ticks s.input_width s.navigate_to s.min s.z_index s.format s.entity s.reset_to) ∧
    (∀ v : Option Bool, {s with always_show_hover_tip := v} =
      XmileSlider.mk s.show_name s.conditional_entity s.increment s.width s.label_side s.y s.wrap_title v s.input_expands s.title s.x s.uid s.show_hover_tip s.vertical s.fancy_appearance s.height s.max s.color s.font_weight s.font_color s.background s.font_family s.font_size s.num_ticks s.input_width s.navigate_to s.min s.z_index s.format s.entity s.reset_to) ∧
    (∀ v : Option Bool, {s with input_expands := v} =
      XmileSlider.mk s.show_name s.conditional_entity s.increment s.width s.label_side s.y s.wrap_title s.always_show_hover_tip v s.title s.x s.uid s.show_hover_tip s.vertical s.fancy_appearance s.height s.max s.color s.font_weight s.font_color s.background s.font_family s.font_size s.num_ticks s.input_width s.navigate_to s.min s.z_index s.format s.entity s.reset_to) ∧
    (∀ v : Option String, {s with title := v} =
      XmileSlider.mk s.show_name s.conditional_entity s.increment s.width s.label_side s.y s.wrap_title s.always_show_hover_tip s.input_expands v s.x s.uid s.show_hover_tip s.vertical s.fancy_appearance s.height s.max s.color s.font_weight s.font_color s.background s.font_family s.font_size s.num_ticks s.input_width s.navigate_to s.min s.z_index s.format s.entity s.reset_to) ∧
    (∀ v : Option UnionIntFloat, {s with x := v} =
      XmileSlider.mk s.show_name s.conditional_entity s.increment s.width s.label_side s.y s.wrap_title s.always_show_hover_tip s.input_expands s.title v s.uid s.show_hover_tip s.vertical s.fancy_appearance s.height s.max s.color s.font_weight s.font_color s.background s.font_family s.font_size s.num_ticks s.input_width s.navigate_to s.min s.z_index s.format s.entity s.reset_to) ∧
    (∀ v : Option Int, {s with uid := v} =
      XmileSlider.mk s.show_name s.conditional_entity s.increment s.width s.label_side s.y s.wrap_title s.always_show_hover_tip s.input_expands s.title s.x v s.show_hover_tip s.vertical s.fancy_appearance s.height s.max s.color s.font_weight s.font_color s.background s.font_family s.font_size s.num_ticks s.input_width s.navigate_to s.min s.z_index s.format s.entity s.reset_to) ∧
    (∀ v : Option String, {s with show_hover_tip := v} =
      XmileSlider.mk s.show_name s.conditional_entity s.increment s.width s.label_side s.y s.wrap_title s.always_show_hover_tip s.input_expands s.title s.x s.uid v s.vertical s.fancy_appearance s.height s.max s.color s.font_weight s.font_color s.background s.font_family s.font_size s.num_ticks s.input_width s.navigate_to s.min s.z_index s.format s.entity s.reset_to) ∧
    (∀ v : Option Bool, {s with vertical := v} =
      XmileSlider.mk s.show_name s.conditional_entity s.increment s.width s.label_side s.y s.wrap_title s.always_show_hover_tip s.input_expands s.title s.x s.uid s.show_hover_tip v s.fancy_appearance s.height s.max s.color s.font_weight s.font_color s.background s.font_family s.font_size s.num_ticks s.input_width s.navigate_to s.min s.z_index s.format s.entity s.reset_to) ∧
    (∀ v : Option Bool, {s with fancy_appearance := v} =
      XmileSlider.mk s.show_name s.conditional_entity s.increment s.width s.label_side s.y s.wrap_title s.always_show_hover_tip s.input_expands s.title s.x s.uid s.show_hover_tip s.vertical v s.height s.max s.color s.font_weight s.font_color s.background s.font_family s.font_size s.num_ticks s.input_width s.navigate_to s.min s.z_index s.format s.entity s.reset_to) ∧
    (∀ v : Option UnionIntFloat, {s with height := v} =
      XmileSlider.mk s.show_name s.conditional_entity s.increment s.width s.label_side s.y s.wrap_title s.always_show_hover_tip s.input_expands s.title s.x s.uid s.show_hover_tip s.vertical s.fancy_appearance v s.max s.color s.font_weight s.font_color s.background s.font_family s.font_size s.num_ticks s.input_width s.navigate_to s.min s.z_index s.format s.entity s.reset_to) ∧
    (∀ v : Option UnionIntFloat, {s with max := v} =
      XmileSlider.mk s.show_name s.conditional_entity s.increment s.width s.label_side s.y s.wrap_title s.always_show_hover_tip s.input_expands s.title s.x s.uid s.show_hover_tip s.vertical s.fancy_appearance s.height v s.color s.font_weight s.font_color s.background s.font_family s.font_size s.num_ticks s.input_width s.navigate_to s.min s.z_index s.format s.entity s.reset_to) ∧
    (∀ v : Option String, {s with color := v} =
      XmileSlider.mk s.show_name s.conditional_entity s.increment s.width s.label_side s.y s.wrap_title s.always_show_hover_tip s.input_expands s.title s.x s.uid s.show_hover_tip s.vertical s.fancy_appearance s.height s.max v s.font_weight s.font_color s.background s.font_family s.font_size s.num_ticks s.input_width s.navigate_to s.min s.z_index s.format s.entity s.reset_to) ∧
    (∀ v : Option String, {s with font_weight := v} =
      XmileSlider.mk s.show_name s.conditional_entity s.increment s.width s.label_side s.y s.wrap_title s.always_show_hover_tip s.input_expands s.title s.x s.uid s.show_hover_tip s.vertical s.fancy_appearance s.height s.max s.color v s.font_color s.background s.font_family s.font_size s.num_ticks s.input_width s.navigate_to s.min s.z_index s.format s.entity s.reset_to) ∧
    (∀ v : Option String, {s with font_color := v} =
      XmileSlider.mk s.show_name s.conditional_entity s.increment s.width s.label_side s.y s.wrap_title s.always_show_hover_tip s.input_expands s.title s.x s.uid s.show_hover_tip s.vertical s.fancy_appearance s.height s.max s.color s.font_weight v s.background s.font_family s.font_size s.num_ticks s.input_width s.navigate_to s.min s.z_index s.format s.entity s.reset_to) ∧
    (∀ v : Option String, {s with background := v} =
      XmileSlider.mk s.show_name s.conditional_entity s.increment s.width s.label_side s.y s.wrap_title s.always_show_hover_tip s.input_expands s.title s.x s.uid s.show_hover_tip s.vertical s.fancy_appearance s.height s.max s.color s.font_weight s.font_color v s.font_family s.font_size s.num_ticks s.input_width s.navigate_to s.min s.z_index s.format s.entity s.reset_to) ∧
    (∀ v : Option String, {s with font_family := v} =
      XmileSlider.mk s.show_name s.conditional_entity s.increment s.width s.label_side s.y s.wrap_title s.always_show_hover_tip s.input_expands s.title s.x s.uid s.show_hover_tip s.vertical s.fancy_appearance s.height s.max s.color s.font_weight s.font_color s.background v s.font_size s.num_ticks s.input_width s.navigate_to s.min s.z_index s.format s.entity s.reset_to) ∧
    (∀ v : Option String, {s with font_size := v} =
      XmileSlider.mk s.show_name s.conditional_entity s.increment s.width s.label_side s.y s.wrap_title s.always_show_hover_tip s.input_expands s.title s.x s.uid s.show_hover_tip s.vertical s.fancy_appearance s.height s.max s.color s.font_weight s.font_color s.background s.font_family v s.num_ticks s.input_width s.navigate_to s.min s.z_index s.format s.entity s.reset_to) ∧
    (∀ v : Option Int, {s with num_ticks := v} =
      XmileSlider.mk s.show_name s.conditional_entity s.increment s.width s.label_side s.y s.wrap_title s.always_show_hover_tip s.input_expands s.title s.x s.uid s.show_hover_tip s.vertical s.fancy_appearance s.height s.max s.color s.font_weight s.font_color s.background s.font_family s.font_size v s.input_width s.navigate_to s.min s.z_index s.format s.entity s.reset_to) ∧
    (∀ v : Option Int, {s with input_width := v} =
      XmileSlider.mk s.show_name s.conditional_entity s.increment s.width s.label_side s.y s.wrap_title s.always_show_hover_tip s.input_expands s.title s.x s.uid s.show_hover_tip s.vertical s.fancy_appearance s.height s.max s.color s.font_weight s.font_color s.background s.font_family s.font_size s.num_ticks v s.navigate_to s.min s.z_index s.format s.entity s.reset_to) ∧
    (∀ v : Option Bool, {s with navigate_to := v} =
      XmileSlider.mk s.show_name s.conditional_entity s.increment s.width s.label_side s.y s.wrap_title s.always_show_hover_tip s.input_expands s.title s.x s.uid s.show_hover_tip s.vertical s.fancy_appearance s.height s.max s.color s.font_weight s.font_color s.background s.font_family s.font_size s.num_ticks s.input_width v s.min s.z_index s.format s.entity s.reset_to) ∧
    (∀ v : Option UnionIntFloat, {s with min := v} =
      XmileSlider.mk s.show_name s.conditional_entity s.increment s.width s.label_side s.y s.wrap_title s.always_show_hover_tip s.input_expands s.title s.x s.uid s.show_hover_tip s.vertical s.fancy_appearance s.height s.max s.color s.font_weight s.font_color s.background s.font_family s.font_size s.num_ticks s.input_width s.navigate_to v s.z_index s.format s.entity s.reset_to) ∧
    (∀ v : Option Int, {s with z_index := v} =
      XmileSlider.mk s.show_name s.conditional_entity s.increment s.width s.label_side s.y s.wrap_title s.always_show_hover_tip s.input_expands s.title s.x s.uid s.show_hover_tip s.vertical s.fancy_appearance s.height s.max s.color s.font_weight s.font_color s.background s.font_family s.font_size s.num_ticks s.input_width s.navigate_to s.min v s.format s.entity s.reset_to) ∧
    (∀ v : Option XmileFormat, {s with format := v} =
      XmileSlider.mk s.show_name s.conditional_entity s.increment s.width s.label_side s.y s.wrap_title s.always_show_hover_tip s.input_expands s.title s.x s.uid s.show_hover_tip s.vertical s.fancy_appearance s.height s.max s.color s.font_weight s.font_color s.background s.font_family s.font_size s.num_ticks s.input_width s.navigate_to s.min s.z_index v s.entity s.reset_to) ∧
    (∀ v : Option XmileEntity, {s with entity := v} =
      XmileSlider.mk s.show_name s.conditional_entity s.increment s.width s.label_side s.y s.wrap_title s.always_show_hover_tip s.input_expands s.title s.x s.uid s.show_hover_tip s.vertical s.fancy_appearance s.height s.max s.color s.font_weight s.font_color s.background s.font_family s.font_size s.num_ticks s.input_width s.navigate_to s.min s.z_index s.format v s.reset_to) ∧
    (∀ v : Option XmileResetTo, {s with reset_to := v} =
      XmileSlider.mk s.show_name s.conditional_entity s.increment s.width s.label_side s.y s.wrap_title s.always_show_hover_tip s.input_expands s.title s.x s.uid s.show_hover_tip s.vertical s.fancy_appearance s.height s.max s.color s.font_weight s.font_color s.background s.font_family s.font_size s.num_ticks s.input_width s.navigate_to s.min s.z_index s.format s.entity v) :=
  ⟨fun _ => rfl, fun _ => rfl, fun _ => rfl, fun _ => rfl, fun _ => rfl, fun _ => rfl, fun _ => rfl, fun _ => rfl, fun _ => rfl, fun _ => rfl, fun _ => rfl, fun _ => rfl, fun _ => rfl, fun _ => rfl, fun _ => rfl, fun _ => rfl, fun _ => rfl, fun _ => rfl, fun _ => rfl, fun _ => rfl, fun _ => rfl, fun _ => rfl, fun _ => rfl, fun _ => rfl, fun _ => rfl, fun _ => rfl, fun _ => rfl, fun _ => rfl, fun _ => rfl, fun _ => rfl, fun _ => rfl⟩

/-- C10: equality on `XmileSlider` is structural: two instances are equal iff every
corresponding field (the 28 scalar fields and the 3 nested records) is equal, unset
(`none`) on both sides counting as equal. -/
theorem C10_structural_equality (s t : XmileSlider) :
    s = t ↔
      (s.show_name = t.show_name ∧
      s.conditional_entity = t.conditional_entity ∧
      s.increment = t.increment ∧
      s.width = t.width ∧
      s.label_side = t.label_side ∧
      s.y = t.y ∧
      s.wrap_title = t.wrap_title ∧
      s.always_show_hover_tip = t.always_show_hover_tip ∧
      s.input_expands = t.input_expands ∧
      s.title = t.title ∧
      s.x = t.x ∧
      s.uid = t.uid ∧
      s.show_hover_tip = t.show_hover_tip ∧
      s.vertical = t.vertical ∧
      s.fancy_appearance = t.fancy_appearance ∧
      s.height = t.height ∧
      s.max = t.max ∧
      s.color = t.color ∧
      s.font_weight = t.font_weight ∧
      s.font_color = t.font_color ∧
      s.background = t.background ∧
      s.font_family = t.font_family ∧
      s.font_size = t.font_size ∧
      s.num_ticks = t.num_ticks ∧
      s.input_width = t.input_width ∧
      s.navigate_to = t.navigate_to ∧
      s.min = t.min ∧
      s.z_index = t.z_index ∧
      s.format = t.format ∧
      s.entity = t.entity ∧
      s.reset_to = t.reset_to) := by
  cases s
  cases t
  simp
